import Mathlib

/-!
Verification of the sequelize-orm-with-express article CRUD application.

The development shallowly embeds the two components of the repository:

* `src/models/articles.js` — the `Article` model: the persisted attributes
  (`title` with a `notEmpty` validator, `author`, `body`) and the two
  instance methods `publishedAt` (moment format `'MMMM D, YYYY, h:mma'`
  over `createdAt`) and `shortDescription` (first 200 characters of `body`
  plus `'...'` when longer than 200).
* `src/routes/articles.js` — the eight route handlers (list, new-form,
  create, edit-form, show, update, delete-form, delete), each performing at
  most one persistence operation and producing exactly one response
  (render, redirect, 404 status, or an error forwarded by `asyncHandler`
  to the global error handler).

The persistence collaborator (Sequelize over SQLite) is not part of the
repository; its contract is modelled from the specification: `create`
inserts a row from the submitted `title`/`author`/`body` with a
system-assigned `id` and timestamps, `update` applies the same fields to an
existing row, both re-running the `notEmpty` title validator declared in
`src/models/articles.js`; `findByPk` looks a row up by primary key, with a
non-numeric id degrading to not-found (SQLite affinity); `findAll` with
`order [["createdAt", "DESC"]]` returns every row newest first.
-/

namespace SequelizeIt

/-- Calendar timestamp as stored in `createdAt` / `updatedAt`. -/
structure DateTime where
  year : Nat
  month : Nat
  day : Nat
  hour : Nat
  minute : Nat
deriving DecidableEq, Repr

/-- Chronological key of a timestamp: lexicographic on
(year, month, day, hour, minute), encoded as a single natural number. -/
def DateTime.key (d : DateTime) : Nat :=
  ((((d.year * 13 + d.month) * 32 + d.day) * 24 + d.hour) * 60) + d.minute

/-- A persisted Article row.  `body` is nullable (the model declares no
validator for it), which the embedding records with `Option`. -/
structure Article where
  id : Nat
  title : String
  author : String
  body : Option String
  createdAt : DateTime
  updatedAt : DateTime
deriving DecidableEq, Repr

/-- English month names as produced by moment's `MMMM` token
(month is 1-based here; out-of-range months never arise from a real
`Date`). -/
def monthName : Nat → String
  | 1 => "January"
  | 2 => "February"
  | 3 => "March"
  | 4 => "April"
  | 5 => "May"
  | 6 => "June"
  | 7 => "July"
  | 8 => "August"
  | 9 => "September"
  | 10 => "October"
  | 11 => "November"
  | 12 => "December"
  | _ => "Invalid"

/-- Two-digit zero padding, moment's `mm` token. -/
def pad2 (n : Nat) : String :=
  if n < 10 then "0" ++ toString n else toString n

/-- Clock hour for moment's `h` token: 12-hour clock without leading zero. -/
def hour12 (hour : Nat) : Nat :=
  if hour % 12 = 0 then 12 else hour % 12

/-- Lowercase meridiem, moment's `a` token. -/
def meridiem (hour : Nat) : String :=
  if hour < 12 then "am" else "pm"

/-- Interpretation of a moment format string over a timestamp, restricted to
the tokens appearing in the model (`MMMM`, `D`, `YYYY`, `h`, `mm`, `a`);
any other character is a literal.  Tokens are matched greedily, as moment
does. -/
def momentFormat (d : DateTime) : List Char → String
  | [] => ""
  | 'M' :: 'M' :: 'M' :: 'M' :: rest => monthName d.month ++ momentFormat d rest
  | 'Y' :: 'Y' :: 'Y' :: 'Y' :: rest => toString d.year ++ momentFormat d rest
  | 'm' :: 'm' :: rest => pad2 d.minute ++ momentFormat d rest
  | 'h' :: rest => toString (hour12 d.hour) ++ momentFormat d rest
  | 'D' :: rest => toString d.day ++ momentFormat d rest
  | 'a' :: rest => meridiem d.hour ++ momentFormat d rest
  | c :: rest => String.singleton c ++ momentFormat d rest

/-- Instance method `publishedAt` of `src/models/articles.js`:
`moment(this.createdAt).format('MMMM D, YYYY, h:mma')`. -/
def Article.publishedAt (a : Article) : String :=
  momentFormat a.createdAt ("MMMM D, YYYY, h:mma").data

/-- Truncation applied by `shortDescription` to a non-null body:
`body.length > 200 ? body.substring(0, 200) + '...' : body`.
JavaScript string length and `substring` count characters (UTF-16 units;
the embedding uses characters). -/
def shortDescriptionStr (body : String) : String :=
  if body.length > 200 then body.take 200 ++ "..." else body

/-- Instance method `shortDescription` of `src/models/articles.js` with
JavaScript null semantics made explicit: when `body` is null or undefined,
`this.body.length` throws a `TypeError`, which the embedding reports as
`Except.error`. -/
def Article.shortDescription (a : Article) : Except String String :=
  match a.body with
  | none => Except.error "TypeError: Cannot read properties of null"
  | some b => Except.ok (shortDescriptionStr b)

/-- Characters matched by the whitespace class of the `notEmpty`
validator's pattern. -/
def isJsWhitespace (c : Char) : Bool :=
  c = ' ' || c = '\t' || c = '\n' || c = '\r' || c = '\x0b' || c = '\x0c'

/-- Modelled from the spec: the persistence layer's `notEmpty` validator
semantics (the validator itself lives in the ORM, outside the repository;
`src/models/articles.js` declares it on `title` with the message
`'"Title" is required'`).  A title fails exactly when it is empty or
whitespace-only, and the failure carries the declared message. -/
def validateTitle (title : String) : List String :=
  if title.data.all isJsWhitespace then ["\"Title\" is required"] else []

/-- Errors surfaced by persistence calls: a `SequelizeValidationError`
carrying per-field messages, or any other (infrastructure) error. -/
inductive SeqError where
  | validation (msgs : List String)
  | infra (name : String) (msg : String)
deriving DecidableEq, Repr

/-- The `error.name === 'SequelizeValidationError'` test of the create
route's catch block. -/
def SeqError.isValidationError : SeqError → Bool
  | .validation _ => true
  | .infra _ _ => false

/-- Form fields submitted in a request body (`req.body`).  A crafted
request may also carry values for the system-managed columns; the optional
components record them. -/
structure Fields where
  title : String
  author : String
  body : String
  idField : Option Nat
  createdAtField : Option DateTime
  updatedAtField : Option DateTime
deriving DecidableEq, Repr

/-- An unpersisted instance as returned by `Article.build(req.body)`:
it holds the submitted values and has no id or timestamps. -/
structure Built where
  title : String
  author : String
  body : String
deriving DecidableEq, Repr

/-- Embedding of `Article.build`. -/
def build (f : Fields) : Built :=
  { title := f.title, author := f.author, body := f.body }

/-- Database state: the stored rows and the next auto-increment id. -/
structure DB where
  rows : List Article
  nextId : Nat
deriving DecidableEq, Repr

/-- Modelled from the spec: the persistence layer's `create(fields)`
(Sequelize `Model.create` is outside the repository).  It validates
`title`, and on success inserts a row built from the submitted
`title`/`author`/`body` with a system-assigned `id` and timestamps; values
submitted for `id` or the timestamps are not part of the row mapping. -/
def Article.create (db : DB) (now : DateTime) (f : Fields) :
    Except SeqError (Article × DB) :=
  match validateTitle f.title with
  | [] =>
    let a : Article :=
      { id := db.nextId, title := f.title, author := f.author,
        body := some f.body, createdAt := now, updatedAt := now }
    Except.ok (a, { rows := db.rows ++ [a], nextId := db.nextId + 1 })
  | msgs => Except.error (SeqError.validation msgs)

/-- Modelled from the spec: the persistence layer's
`instance.update(fields)`.  It re-validates `title`; on success it applies
`title`/`author`/`body` onto the row, refreshes `updatedAt`, and keeps
`id` and `createdAt`; values submitted for `id` or the timestamps are not
part of the row mapping. -/
def Article.update (db : DB) (now : DateTime) (a : Article) (f : Fields) :
    Except SeqError (Article × DB) :=
  match validateTitle f.title with
  | [] =>
    let a2 : Article :=
      { id := a.id, title := f.title, author := f.author,
        body := some f.body, createdAt := a.createdAt, updatedAt := now }
    Except.ok (a2, { rows := db.rows.map (fun r => if r.id = a.id then a2 else r),
                     nextId := db.nextId })
  | msgs => Except.error (SeqError.validation msgs)

/-- Modelled from the spec: `instance.destroy()` permanently removes the
row (hard delete). -/
def Article.destroy (db : DB) (a : Article) : DB :=
  { rows := db.rows.filter (fun r => r.id ≠ a.id), nextId := db.nextId }

/-- Numeric reading of a path id: `some n` when the string is a non-empty
digit sequence, `none` otherwise. -/
def idToNat? (s : String) : Option Nat :=
  if s.data ≠ [] ∧ s.data.all (fun c => c.isDigit) then
    some (s.data.foldl (fun n c => n * 10 + (c.toNat - '0'.toNat)) 0)
  else none

/-- Modelled from the spec: `Article.findByPk(req.params.id)` with the id
taken verbatim from the path as a string.  Under SQLite affinity a numeric
string is compared as the corresponding integer key and a non-numeric
string matches no integer primary key, so the lookup degrades to
not-found rather than erroring. -/
def Article.findByPk (db : DB) (idStr : String) : Option Article :=
  match idToNat? idStr with
  | some n => db.rows.find? (fun r => r.id = n)
  | none => none

/-- Ordering requested by the listing route:
`order [["createdAt", "DESC"]]` — newest first. -/
def createdAtDesc (a b : Article) : Prop :=
  b.createdAt.key ≤ a.createdAt.key

instance : DecidableRel createdAtDesc :=
  fun a b => Nat.decLe b.createdAt.key a.createdAt.key

instance : IsTotal Article createdAtDesc :=
  ⟨fun a b => (Nat.le_total b.createdAt.key a.createdAt.key).elim Or.inl Or.inr⟩

instance : IsTrans Article createdAtDesc :=
  ⟨fun _ _ _ hab hbc => Nat.le_trans hbc hab⟩

/-- Modelled from the spec: `Article.findAll({order: [["createdAt",
"DESC"]]})` returns all rows sorted newest first; no pagination, no
filtering. -/
def Article.findAll (db : DB) : List Article :=
  List.insertionSort createdAtDesc db.rows

/-- The single response each handler produces: a rendered view with its
payload, a redirect, a bare status code, or an error forwarded by
`asyncHandler` via `next(error)` to the global error handler. -/
inductive Response where
  | renderIndex (articles : List Article) (pageTitle : String)
  | renderNewBlank (pageTitle : String)
  | renderNewWithErrors (article : Built) (errors : List String) (pageTitle : String)
  | renderShow (article : Article) (pageTitle : String)
  | renderEdit (article : Article) (pageTitle : String)
  | renderDeleteForm (article : Article) (pageTitle : String)
  | redirect (path : String)
  | sendStatus (code : Nat)
  | errorForwarded (e : SeqError)
deriving DecidableEq, Repr

/-- Route `GET /` of `src/routes/articles.js`: `findAll` ordered by
`createdAt DESC`, then render `articles/index`. -/
def getIndex (db : DB) : Response :=
  Response.renderIndex (Article.findAll db) "Sequelize-It!"

/-- Route `GET /new`: render a blank creation form (no persistence
call). -/
def getNewForm : Response :=
  Response.renderNewBlank "New Article"

/-- Catch block of route `POST /`: a `SequelizeValidationError` re-renders
`articles/new` with `Article.build(req.body)` and `error.errors`;
any other error is rethrown into `asyncHandler`, which forwards it. -/
def postCreateCatch (f : Fields) (e : SeqError) : Response :=
  match e with
  | SeqError.validation msgs =>
    Response.renderNewWithErrors (build f) msgs "New Article"
  | SeqError.infra _ _ => Response.errorForwarded e

/-- Route `POST /`: `Article.create(req.body)`, redirect to
`"/articles/" + article.id` on success, otherwise run the catch block. -/
def postCreate (db : DB) (now : DateTime) (f : Fields) : Response × DB :=
  match Article.create db now f with
  | Except.ok (a, db2) => (Response.redirect ("/articles/" ++ toString a.id), db2)
  | Except.error e => (postCreateCatch f e, db)

/-- Route `GET /:id/edit`: find by primary key, render the edit form, or
send 404. -/
def getEditForm (db : DB) (idStr : String) : Response :=
  match Article.findByPk db idStr with
  | some a => Response.renderEdit a "Edit Article"
  | none => Response.sendStatus 404

/-- Route `GET /:id`: find by primary key, render `articles/show`, or send
404. -/
def getShow (db : DB) (idStr : String) : Response :=
  match Article.findByPk db idStr with
  | some a => Response.renderShow a a.title
  | none => Response.sendStatus 404

/-- Route `POST /:id/edit`: find by primary key; if found,
`article.update(req.body)` then redirect; the route has no local catch, so
a failing update is forwarded by `asyncHandler` to the global error
handler.  If not found, send 404 and perform no update. -/
def postUpdate (db : DB) (now : DateTime) (idStr : String) (f : Fields) :
    Response × DB :=
  match Article.findByPk db idStr with
  | some a =>
    match Article.update db now a f with
    | Except.ok (a2, db2) => (Response.redirect ("/articles/" ++ toString a2.id), db2)
    | Except.error e => (Response.errorForwarded e, db)
  | none => (Response.sendStatus 404, db)

/-- Route `GET /:id/delete`: find by primary key, render the
delete-confirmation form, or send 404. -/
def getDeleteForm (db : DB) (idStr : String) : Response :=
  match Article.findByPk db idStr with
  | some a => Response.renderDeleteForm a "Delete Article"
  | none => Response.sendStatus 404

/-- Route `POST /:id/delete`: find by primary key; if found,
`article.destroy()` then redirect to `/articles`; if not found, send 404
and perform no destroy. -/
def postDelete (db : DB) (idStr : String) : Response × DB :=
  match Article.findByPk db idStr with
  | some a => (Response.redirect "/articles", Article.destroy db a)
  | none => (Response.sendStatus 404, db)

/-- Publish label exactly as the spec words it: month name fully spelled,
day and 12-hour hour without leading zero, two-digit minutes, lowercase
am/pm, with the literal separators of
"<Month name> <day>, <year>, <hour>:<minute><am/pm>". -/
def specPublishLabel (d : DateTime) : String :=
  monthName d.month ++ " " ++ toString d.day ++ ", " ++ toString d.year ++ ", "
    ++ toString (hour12 d.hour) ++ ":" ++ pad2 d.minute ++ meridiem d.hour

/-- Concrete timestamp 2024-03-04T15:45, the spec's `publishedAt`
example. -/
def dtEx : DateTime :=
  { year := 2024, month := 3, day := 4, hour := 15, minute := 45 }

/-- Another concrete timestamp, used as a crafted timestamp value in
requests. -/
def dtOther : DateTime :=
  { year := 2025, month := 1, day := 2, hour := 3, minute := 4 }

/-- A stored article used by the concrete scenarios. -/
def art1 : Article :=
  { id := 1, title := "Old", author := "A", body := some "B",
    createdAt := dtEx, updatedAt := dtEx }

/-- A database holding `art1`, with next auto-increment id 2. -/
def db1 : DB := { rows := [art1], nextId := 2 }

/-- The empty database. -/
def dbEmpty : DB := { rows := [], nextId := 0 }

/-- A submitted form whose title is empty (and which also carries
`author`/`body` text to be preserved on re-render). -/
def fEmptyTitle : Fields :=
  { title := "", author := "att", body := "btt",
    idField := none, createdAtField := none, updatedAtField := none }

/-- A submitted form with a valid title. -/
def fGood : Fields :=
  { title := "New", author := "Au", body := "Bo",
    idField := none, createdAtField := none, updatedAtField := none }

/-- The row `Article.create db1 dtEx fGood` inserts. -/
def artNew : Article :=
  { id := 2, title := "New", author := "Au", body := some "Bo",
    createdAt := dtEx, updatedAt := dtEx }

/-- An article whose nullable `body` is absent. -/
def artNoBody : Article :=
  { id := 3, title := "t", author := "a", body := none,
    createdAt := dtEx, updatedAt := dtEx }

/-- A body of exactly 200 characters. -/
def b200 : String := String.mk (List.replicate 200 'x')

/-- A body of exactly 201 characters. -/
def b201 : String := String.mk (List.replicate 201 'x')

/-- An article whose body has exactly 200 characters. -/
def art200 : Article :=
  { id := 4, title := "t", author := "a", body := some b200,
    createdAt := dtEx, updatedAt := dtEx }

/-- An article whose body has exactly 201 characters. -/
def art201 : Article :=
  { id := 5, title := "t", author := "a", body := some b201,
    createdAt := dtEx, updatedAt := dtEx }

/-- A second stored article, newer than `art1`. -/
def artNewer : Article :=
  { id := 6, title := "N2", author := "A2", body := some "B2",
    createdAt := dtOther, updatedAt := dtOther }

/-- A database holding the older `art1` and the newer `artNewer`, stored
oldest first so that the listing has to reorder them. -/
def db2 : DB := { rows := [art1, artNewer], nextId := 7 }

/-- The database after `Article.create db1 dtEx fGood`. -/
def dbAfterCreate : DB := { rows := [art1, artNew], nextId := 3 }

/-- The row `Article.update db1 dtOther art1 fGood` produces. -/
def artUpd : Article :=
  { id := 1, title := "New", author := "Au", body := some "Bo",
    createdAt := dtEx, updatedAt := dtOther }

/-- The database after `Article.update db1 dtOther art1 fGood`. -/
def dbAfterUpdate : DB := { rows := [artUpd], nextId := 2 }

end SequelizeIt

namespace SequelizeIt

/-- C1: updating the existing article id 1 (stored title "Old") with an
empty title makes the persistence layer's update raise the
ValidationError and leaves the stored title unchanged, but the route
forwards the error to the global error handler instead of re-rendering
the edit form with the attempted values and messages: the response is
`errorForwarded`, not a render of `articles/edit`. -/
theorem C1_update_validation_error_forwarded :
    Article.update db1 dtOther art1 fEmptyTitle =
      Except.error (SeqError.validation ["\"Title\" is required"]) ∧
    postUpdate db1 dtOther "1" fEmptyTitle =
      (Response.errorForwarded (SeqError.validation ["\"Title\" is required"]), db1) ∧
    (postUpdate db1 dtOther "1" fEmptyTitle).2.rows.map Article.title = ["Old"] :=
  ⟨rfl, rfl, rfl⟩

/-- C2: when `Article.create` raises a ValidationError, the create route
writes no row (the database is returned unchanged), re-renders
`articles/new` with the unpersisted `build` of the submitted fields
(preserving the submitted author and body) and a non-empty message list;
any non-validation error in the catch block is forwarded to the error
collaborator instead. -/
theorem C2_create_validation_rerenders (db : DB) (now : DateTime)
    (f : Fields) (msgs : List String)
    (h : Article.create db now f = Except.error (SeqError.validation msgs)) :
    postCreate db now f =
      (Response.renderNewWithErrors (build f) msgs "New Article", db) ∧
    msgs ≠ [] ∧
    (build f).author = f.author ∧ (build f).body = f.body ∧
    (∀ n m, postCreateCatch f (SeqError.infra n m) =
      Response.errorForwarded (SeqError.infra n m)) := by
  have hmsgs : msgs = ["\"Title\" is required"] := by
    by_cases hc : f.title.data.all isJsWhitespace
    · simp [Article.create, validateTitle, hc] at h
      exact h.symm
    · simp [Article.create, validateTitle, hc] at h
  refine ⟨?_, by simp [hmsgs], rfl, rfl, fun n m => rfl⟩
  simp [postCreate, h, postCreateCatch]

/-- Closed instance of C2: the empty-title form on the singleton database
re-renders the creation form with the attempted values and the message,
and an infrastructure error is forwarded. -/
theorem C2_create_validation_rerenders_witness :
    postCreate db1 dtOther fEmptyTitle =
      (Response.renderNewWithErrors (build fEmptyTitle)
        ["\"Title\" is required"] "New Article", db1) ∧
    ["\"Title\" is required"] ≠ ([] : List String) ∧
    (build fEmptyTitle).author = fEmptyTitle.author ∧
    (build fEmptyTitle).body = fEmptyTitle.body ∧
    (∀ n m, postCreateCatch fEmptyTitle (SeqError.infra n m) =
      Response.errorForwarded (SeqError.infra n m)) :=
  C2_create_validation_rerenders db1 dtOther fEmptyTitle
    ["\"Title\" is required"] rfl

/-- C3: when `findByPk` returns not-found, the show, edit-form, update and
delete handlers each respond 404 and leave the database untouched (no
update and no destroy is attempted). -/
theorem C3_not_found_handlers (db : DB) (now : DateTime) (idStr : String)
    (f : Fields) (h : Article.findByPk db idStr = none) :
    getShow db idStr = Response.sendStatus 404 ∧
    getEditForm db idStr = Response.sendStatus 404 ∧
    postUpdate db now idStr f = (Response.sendStatus 404, db) ∧
    postDelete db idStr = (Response.sendStatus 404, db) := by
  exact ⟨by simp [getShow, h], by simp [getEditForm, h],
    by simp [postUpdate, h], by simp [postDelete, h]⟩

/-- Closed instance of C3 at the never-assigned id 7 on the empty
database. -/
theorem C3_not_found_handlers_witness :
    getShow dbEmpty "7" = Response.sendStatus 404 ∧
    getEditForm dbEmpty "7" = Response.sendStatus 404 ∧
    postUpdate dbEmpty dtOther "7" fGood = (Response.sendStatus 404, dbEmpty) ∧
    postDelete dbEmpty "7" = (Response.sendStatus 404, dbEmpty) :=
  C3_not_found_handlers dbEmpty dtOther "7" fGood rfl

/-- C4: `shortDescription` returns the body unchanged when it has at most
200 characters and the first 200 characters followed by "..." when it is
longer; truncation counts characters. -/
theorem C4_shortDescription_truncation (a : Article) (b : String)
    (hb : a.body = some b) :
    (b.length ≤ 200 → a.shortDescription = Except.ok b) ∧
    (200 < b.length →
      a.shortDescription = Except.ok (b.take 200 ++ "...")) := by
  have hs : a.shortDescription = Except.ok (shortDescriptionStr b) := by
    simp [Article.shortDescription, hb]
  constructor
  · intro h
    rw [hs]
    simp only [shortDescriptionStr]
    rw [if_neg (by omega)]
  · intro h
    rw [hs]
    simp only [shortDescriptionStr]
    rw [if_pos (by omega)]

/-- Closed instance of C4: a 200-character body comes back unchanged with
no ellipsis, a 201-character body comes back as its first 200 characters
plus "...". -/
theorem C4_shortDescription_truncation_witness :
    b200.length ≤ 200 ∧ art200.shortDescription = Except.ok b200 ∧
    200 < b201.length ∧
    art201.shortDescription = Except.ok (b201.take 200 ++ "...") := by
  have h200 : b200.length = 200 := by
    show (String.mk (List.replicate 200 'x')).length = 200
    rw [String.length_mk, List.length_replicate]
  have h201 : b201.length = 201 := by
    show (String.mk (List.replicate 201 'x')).length = 201
    rw [String.length_mk, List.length_replicate]
  exact ⟨by omega, (C4_shortDescription_truncation art200 b200 rfl).1 (by omega),
    by omega, (C4_shortDescription_truncation art201 b201 rfl).2 (by omega)⟩

/-- C5: a title that is empty or whitespace-only makes both create and
update fail with a ValidationError carrying at least one message (so it is
never persisted), while a title containing at least one non-whitespace
character passes validation. -/
theorem C5_title_validation (db : DB) (now : DateTime) (a : Article)
    (f : Fields) :
    (f.title.data.all isJsWhitespace = true →
      ∃ msgs, msgs ≠ [] ∧
        Article.create db now f = Except.error (SeqError.validation msgs) ∧
        Article.update db now a f = Except.error (SeqError.validation msgs)) ∧
    ((∃ c ∈ f.title.data, isJsWhitespace c = false) →
      validateTitle f.title = []) := by
  constructor
  · intro h
    refine ⟨["\"Title\" is required"], by simp, ?_, ?_⟩ <;>
      simp [Article.create, Article.update, validateTitle, h]
  · rintro ⟨c, hc, hnc⟩
    have hall : ¬ f.title.data.all isJsWhitespace = true := by
      simp only [List.all_eq_true]
      intro hAll
      rw [hAll c hc] at hnc
      cases hnc
    simp [validateTitle, hall]

/-- Closed instance of C5: the empty title is rejected on both create and
update with the declared message, and the title "New" passes
validation. -/
theorem C5_title_validation_witness :
    (∃ msgs, msgs ≠ [] ∧
      Article.create db1 dtOther fEmptyTitle =
        Except.error (SeqError.validation msgs) ∧
      Article.update db1 dtOther art1 fEmptyTitle =
        Except.error (SeqError.validation msgs)) ∧
    validateTitle fGood.title = [] :=
  ⟨(C5_title_validation db1 dtOther art1 fEmptyTitle).1 (by decide),
    (C5_title_validation db1 dtOther art1 fGood).2 ⟨'N', by decide, by decide⟩⟩

/-- C6: the listing route renders exactly the `findAll` result, which is a
permutation of all stored rows (no pagination, no filtering) ordered by
`createdAt` descending: any article at a later position has a `createdAt`
no later than any article before it. -/
theorem C6_listing_newest_first (db : DB) :
    getIndex db = Response.renderIndex (Article.findAll db) "Sequelize-It!" ∧
    (Article.findAll db).Perm db.rows ∧
    List.Pairwise createdAtDesc (Article.findAll db) ∧
    ∀ (i j : Fin (Article.findAll db).length), i < j →
      ((Article.findAll db).get j).createdAt.key ≤
        ((Article.findAll db).get i).createdAt.key := by
  refine ⟨rfl, List.perm_insertionSort _ _, List.sorted_insertionSort _ _, ?_⟩
  intro i j hij
  exact List.pairwise_iff_get.mp (List.sorted_insertionSort _ _) i j hij

/-- Closed instance of C6 on a two-row database stored oldest first: the
listing reorders it newest first. -/
theorem C6_listing_newest_first_witness :
    getIndex db2 = Response.renderIndex (Article.findAll db2) "Sequelize-It!" ∧
    (Article.findAll db2).Perm db2.rows ∧
    List.Pairwise createdAtDesc (Article.findAll db2) ∧
    ((Article.findAll db2).get ⟨1, by decide⟩).createdAt.key ≤
      ((Article.findAll db2).get ⟨0, by decide⟩).createdAt.key := by
  obtain ⟨h1, h2, h3, h4⟩ := C6_listing_newest_first db2
  exact ⟨h1, h2, h3, h4 ⟨0, by decide⟩ ⟨1, by decide⟩ (by decide)⟩

/-- C7: `publishedAt` renders `createdAt` in exactly the literal format
"<Month name> <day>, <year>, <hour>:<minute><am/pm>" (month spelled out,
day and 12-hour hour without leading zero, two-digit minutes, lowercase
am/pm), and on 2024-03-04T15:45 it yields "March 4, 2024, 3:45pm". -/
theorem C7_publishedAt_exact_format :
    (∀ a : Article, a.publishedAt = specPublishLabel a.createdAt) ∧
    art1.publishedAt = "March 4, 2024, 3:45pm" := by
  constructor
  · intro a
    apply String.ext
    show (momentFormat a.createdAt ("MMMM D, YYYY, h:mma").data).data = _
    rw [show ("MMMM D, YYYY, h:mma").data =
      ['M','M','M','M',' ','D',',',' ','Y','Y','Y','Y',',',' ','h',':','m','m','a'] from rfl]
    simp only [momentFormat, specPublishLabel, String.data_append,
      show ∀ c : Char, (String.singleton c).data = [c] from fun _ => rfl,
      show (" " : String).data = [' '] from rfl,
      show (", " : String).data = [',', ' '] from rfl,
      show (":" : String).data = [':'] from rfl,
      show ("" : String).data = [] from rfl,
      List.append_assoc, List.cons_append, List.nil_append, List.append_nil]
  · rfl

/-- C8: contrary to the spec's totality requirement, `shortDescription`
fails on an article whose optional `body` is absent: `this.body.length`
on a null body throws a TypeError. -/
theorem C8_shortDescription_null_body_error :
    artNoBody.body = none ∧
    artNoBody.shortDescription =
      Except.error "TypeError: Cannot read properties of null" :=
  ⟨rfl, rfl⟩

/-- C9: values submitted for `id` or the timestamps never take effect:
create and update are insensitive to them, a created row gets the
auto-increment id and both timestamps from the persistence layer, and an
updated row keeps its id and `createdAt`. -/
theorem C9_system_assigned_columns (db : DB) (now : DateTime) (a : Article)
    (f : Fields) (v1 : Option Nat) (v2 v3 : Option DateTime) :
    Article.create db now
        { f with idField := v1, createdAtField := v2, updatedAtField := v3 }
      = Article.create db now f ∧
    Article.update db now a
        { f with idField := v1, createdAtField := v2, updatedAtField := v3 }
      = Article.update db now a f ∧
    (∀ a2 db2x, Article.create db now f = Except.ok (a2, db2x) →
      a2.id = db.nextId ∧ a2.createdAt = now ∧ a2.updatedAt = now) ∧
    (∀ a2 db2x, Article.update db now a f = Except.ok (a2, db2x) →
      a2.id = a.id ∧ a2.createdAt = a.createdAt) := by
  refine ⟨rfl, rfl, ?_, ?_⟩
  · intro a2 db2x h
    revert h
    unfold Article.create
    cases validateTitle f.title
    · intro h
      simp only [Except.ok.injEq, Prod.mk.injEq] at h
      obtain ⟨h1, _⟩ := h
      subst h1
      exact ⟨rfl, rfl, rfl⟩
    · intro h
      simp at h
  · intro a2 db2x h
    revert h
    unfold Article.update
    cases validateTitle f.title
    · intro h
      simp only [Except.ok.injEq, Prod.mk.injEq] at h
      obtain ⟨h1, _⟩ := h
      subst h1
      exact ⟨rfl, rfl⟩
    · intro h
      simp at h

/-- Closed instance of C9: a crafted id 42 and crafted timestamps change
nothing about create, the created row gets id 2 (the auto-increment) and
the request time as both timestamps, and an update keeps id 1 and the
original `createdAt`. -/
theorem C9_system_assigned_columns_witness :
    Article.create db1 dtEx
        { fGood with idField := some 42, createdAtField := some dtOther,
                     updatedAtField := some dtOther }
      = Article.create db1 dtEx fGood ∧
    artNew.id = db1.nextId ∧ artNew.createdAt = dtEx ∧ artNew.updatedAt = dtEx ∧
    artUpd.id = art1.id ∧ artUpd.createdAt = art1.createdAt := by
  obtain ⟨h1, _, h3, _⟩ :=
    C9_system_assigned_columns db1 dtEx art1 fGood (some 42) (some dtOther)
      (some dtOther)
  obtain ⟨_, _, _, h4⟩ :=
    C9_system_assigned_columns db1 dtOther art1 fGood (some 42) (some dtOther)
      (some dtOther)
  obtain ⟨hc1, hc2, hc3⟩ := h3 artNew dbAfterCreate rfl
  obtain ⟨hu1, hu2⟩ := h4 artUpd dbAfterUpdate rfl
  exact ⟨h1, hc1, hc2, hc3, hu1, hu2⟩

/-- C10: a non-numeric path id (one containing a non-digit) makes
`findByPk` return not-found, and every id-taking handler degrades
gracefully to a 404 response with the database untouched, never forwarding
an error to the error collaborator. -/
theorem C10_non_numeric_id_not_found (db : DB) (now : DateTime)
    (idStr : String) (f : Fields)
    (h : idStr.data.all (fun c => c.isDigit) = false) :
    Article.findByPk db idStr = none ∧
    getShow db idStr = Response.sendStatus 404 ∧
    getEditForm db idStr = Response.sendStatus 404 ∧
    getDeleteForm db idStr = Response.sendStatus 404 ∧
    postUpdate db now idStr f = (Response.sendStatus 404, db) ∧
    postDelete db idStr = (Response.sendStatus 404, db) := by
  have hfind : Article.findByPk db idStr = none := by
    simp [Article.findByPk, idToNat?, h]
  exact ⟨hfind, by simp [getShow, hfind], by simp [getEditForm, hfind],
    by simp [getDeleteForm, hfind], by simp [postUpdate, hfind],
    by simp [postDelete, hfind]⟩

/-- Closed instance of C10 at the non-numeric id "abc" on a non-empty
database. -/
theorem C10_non_numeric_id_not_found_witness :
    Article.findByPk db1 "abc" = none ∧
    getShow db1 "abc" = Response.sendStatus 404 ∧
    getEditForm db1 "abc" = Response.sendStatus 404 ∧
    getDeleteForm db1 "abc" = Response.sendStatus 404 ∧
    postUpdate db1 dtOther "abc" fGood = (Response.sendStatus 404, db1) ∧
    postDelete db1 "abc" = (Response.sendStatus 404, db1) :=
  C10_non_numeric_id_not_found db1 dtOther "abc" fGood (by decide)

end SequelizeIt
